import Mathlib

/-!
Verification of the rolling-stocktake dashboard widget
(`src/frontend/src/Dashboard.tsx`).

The widget is UI glue: it fetches a list of stock items from a fixed
endpoint with a client-side query cache, and renders one of several
states (loading indicator, error alert, success-empty alert, or a table
of rows with a bulk count-stock button).  The embedding below translates
the component functions of `Dashboard.tsx` into pure Lean functions:

* React elements become values of small inductive types (`Cell`, `Row`,
  `ItemsBody`, `WState`);
* the TanStack-query result object becomes a `QueryState` record of the
  four booleans the component reads (`isLoading`, `isFetching`,
  `isError`, `isSuccess`) plus the cached response `data`, constrained
  by the library invariants `reactQueryInv`;
* event handlers become the effect they would perform when triggered
  (`Option Effect` for the per-row navigation click, a list of `CacheOp`
  for the form-completion refresh callback);
* JavaScript truthiness tests on optional values are made explicit
  (`truthyNum`, `truthyStr`, and `Option` pattern matches).
-/

/-- The fixed endpoint path, `NEXT_ITEM_URL` (Dashboard.tsx line 33). -/
def NEXT_ITEM_URL : String := "/plugin/rolling-stocktake/next/"

/-- A stock-location object as delivered inside `location_detail`.  Its
contents are opaque to the widget (it is only forwarded to the host's
`renderInstance`); two representative fields stand in for the payload. -/
structure StockLocation where
  locPk : Nat
  locName : String
deriving DecidableEq

/-- A server-owned stock item.  The widget dereferences only `pk`,
`location_detail` and `stocktake_date`; `extra` stands for all the other
server-owned fields, which the widget forwards opaquely. -/
structure StockItem where
  pk : Option Nat
  location_detail : Option StockLocation
  stocktake_date : Option String
  extra : String
deriving DecidableEq

/-- JavaScript truthiness of an optional number: `undefined`/`null` and
`0` are falsy (Dashboard.tsx line 43 tests `item?.pk`). -/
def truthyNum : Option Nat → Bool
  | none => false
  | some n => n != 0

/-- JavaScript truthiness of an optional string: `undefined`/`null` and
the empty string are falsy (Dashboard.tsx line 72 tests
`item.stocktake_date`). -/
def truthyStr : Option String → Bool
  | none => false
  | some s => s != ""

/-- The two model kinds the widget mentions (`ModelType.stockitem`,
`ModelType.stocklocation` from the host library). -/
inductive ModelType
  | stockitem
  | stocklocation
deriving DecidableEq

/-- Host-library helper `getDetailUrl`: produces the detail-page URL for
a model instance.  The widget treats it as a black box; only the fact
that navigation receives some URL matters to the claims. -/
def getDetailUrl (model : ModelType) (pk : Nat) : String :=
  match model with
  | ModelType.stockitem => "/stock/item/" ++ toString pk ++ "/"
  | ModelType.stocklocation => "/stock/location/" ++ toString pk ++ "/"

/-- An observable effect on the host context. -/
inductive Effect
  | navigate (url : String)
deriving DecidableEq

/-- The `navigateToItem` click handler (Dashboard.tsx lines 42-46): the
effect performed when the row's view action is clicked.  `none` means
the click does nothing. -/
def navigateToItem (item : StockItem) : Option Effect :=
  if truthyNum item.pk then
    some (Effect.navigate (getDetailUrl ModelType.stockitem (item.pk.getD 0)))
  else
    none

/-- A rendered table cell.  `itemInstance` and `locationInstance` record
the exact instance object forwarded to the host's `renderInstance`;
`viewAction` records the click effect of the action icon. -/
inductive Cell
  | itemInstance (item : StockItem)
  | locationInstance (loc : StockLocation) (show_location : Bool)
  | text (s : String)
  | redText (s : String)
  | viewAction (title : String) (onClick : Option Effect)
deriving DecidableEq

/-- One rendered table row (a `Table.Tr` with four `Table.Td`). -/
structure Row where
  itemCell : Cell
  locationCell : Cell
  dateCell : Cell
  actionCell : Cell
deriving DecidableEq

/-- The `RenderStockItem` component (Dashboard.tsx lines 35-94). -/
def RenderStockItem (item : StockItem) : Row :=
  Row.mk
    (Cell.itemInstance item)
    (match item.location_detail with
     | some loc => Cell.locationInstance loc false
     | none => Cell.text "No location")
    (if truthyStr item.stocktake_date then
      Cell.text (item.stocktake_date.getD "")
    else
      Cell.redText "Never")
    (Cell.viewAction "View Item" (navigateToItem item))

/-- An operation on the query cache. -/
inductive CacheOp
  | invalidateQueries (queryKey : List String)
deriving DecidableEq

/-- The argument record passed to the host form factory
`context.forms.stockActions.countStock` (Dashboard.tsx lines 103-109).
`refreshOps` records what the `refresh` callback does when the bulk
action completes. -/
structure CountStockForm where
  items : List StockItem
  model : ModelType
  refreshOps : List CacheOp
deriving DecidableEq

/-- The `countStock` form-factory call made by `RenderStockItems`:
`items: items || []`, `model: stockitem`, and a `refresh` callback that
invalidates the query cache under key `['next-item']`. -/
def countStockForm (items : Option (List StockItem)) : CountStockForm :=
  CountStockForm.mk (items.getD []) ModelType.stockitem
    [CacheOp.invalidateQueries ["next-item"]]

/-- The body rendered by `RenderStockItems`: either the success-empty
alert, or the table of rows followed by the bulk-action button. -/
inductive ItemsBody
  | emptyAlert (title : String) (message : String)
  | table (rows : List Row) (bulkButtonLabel : String)
deriving DecidableEq

/-- The full output of `RenderStockItems`: the form-factory call it
makes unconditionally at the top of the function, and the body it
returns. -/
structure ItemsRender where
  formCall : CountStockForm
  body : ItemsBody
deriving DecidableEq

/-- The `RenderStockItems` component (Dashboard.tsx lines 96-154).  The
form factory is invoked first; then `!items || items.length === 0`
selects the empty alert, otherwise `items.map` produces one row per
item and the count-stock button. -/
def RenderStockItems (items : Option (List StockItem)) : ItemsRender :=
  ItemsRender.mk (countStockForm items)
    (if items.getD [] = [] then
      ItemsBody.emptyAlert "All up to date!"
        "Nice work, you have counted enough items today."
    else
      ItemsBody.table ((items.getD []).map RenderStockItem) "Count Stock")

/-- HTTP method of a request issued through `context.api`. -/
inductive Method
  | GET
deriving DecidableEq

/-- A network request issued through `context.api`. -/
structure Request where
  method : Method
  url : String
deriving DecidableEq

/-- The JSON body returned by the endpoint: it may or may not carry an
`items` array. -/
structure RespData where
  items : Option (List StockItem)
deriving DecidableEq

/-- An HTTP response as seen by the query function. -/
structure Response where
  data : RespData
deriving DecidableEq

/-- The `queryFn` of the item query (Dashboard.tsx lines 165-168):
returns `response.data`. -/
def queryFn (response : Response) : RespData := response.data

/-- The options record passed to `useQuery` (Dashboard.tsx lines
162-169).  `retry` is `none` because the source configures no retry
option. -/
structure QueryOptions where
  enabled : Bool
  queryKey : List String
  request : Request
  retry : Option Nat
deriving DecidableEq

/-- The concrete options of the item query: enabled, cache key
`['next-item']`, a GET of `NEXT_ITEM_URL`, and no retry configuration. -/
def itemQueryOptions : QueryOptions :=
  QueryOptions.mk true ["next-item"] (Request.mk Method.GET NEXT_ITEM_URL) none

/-- Every network request the widget's own code issues: the single GET
performed by the query function (Dashboard.tsx line 166 is the only use
of `context.api`). -/
def widgetRequests : List Request :=
  [Request.mk Method.GET NEXT_ITEM_URL]

/-- The `stockItems` memo (Dashboard.tsx lines 173-175):
`itemQuery.data?.items ?? []`. -/
def stockItems (data : Option RespData) : List StockItem :=
  (data.bind RespData.items).getD []

/-- The part of the TanStack-query result object the component reads. -/
structure QueryState where
  isLoading : Bool
  isFetching : Bool
  isError : Bool
  isSuccess : Bool
  data : Option RespData
deriving DecidableEq

/-- Invariants guaranteed by the query library: `isLoading` means the
query is pending (no settled status yet) and fetching, so it excludes
`isError` and `isSuccess` and forces `isFetching`; and the settled
statuses `isError` and `isSuccess` are mutually exclusive. -/
def reactQueryInv (q : QueryState) : Bool :=
  (!q.isLoading || (q.isFetching && !q.isError && !q.isSuccess)) &&
  (!q.isError || !q.isSuccess)

/-- The query is in one of the four statuses the specification
enumerates: loading, error, or success (empty or with items). -/
def inClaimedStatus (q : QueryState) : Bool :=
  q.isLoading || q.isError || q.isSuccess

/-- The four mutually distinguishable widget states of the claim. -/
inductive WState
  | loader
  | errorAlert
  | emptyAlert
  | table
deriving DecidableEq

/-- Classification of the success branch of the dashboard into the
claim's two success states. -/
def successState (q : QueryState) : WState :=
  match (RenderStockItems (some (stockItems q.data))).body with
  | ItemsBody.emptyAlert _ _ => WState.emptyAlert
  | ItemsBody.table _ _ => WState.table

/-- The conditional body of `RollingStocktakeDashboardItem`
(Dashboard.tsx lines 188-196): the loader renders when
`isLoading || isFetching`; the error alert when
`!isLoading && !isFetching && isError`; the success content when
`!isLoading && isSuccess` (note: no `!isFetching` in this last guard). -/
def dashboardBody (q : QueryState) : List WState :=
  (if q.isLoading || q.isFetching then [WState.loader] else []) ++
  (if !q.isLoading && !q.isFetching && q.isError then [WState.errorAlert] else []) ++
  (if !q.isLoading && q.isSuccess then [successState q] else [])

/-- A representative stock item with a valid primary key. -/
def i0 : StockItem := StockItem.mk (some 1) none none ""

/-- A representative stock item with no primary key and no optional
fields. -/
def iNoPk : StockItem := StockItem.mk none none none ""

/-- Query state during a background refetch of an already successful
query with a non-empty cached item list: exactly what the refresh icon
(Dashboard.tsx line 183) or a cache invalidation produces. -/
def qRefetchSuccess : QueryState :=
  QueryState.mk false true false true (some (RespData.mk (some [i0])))

/-- A settled error state, no fetch in flight. -/
def qError : QueryState :=
  QueryState.mk false false true false none

/-- C1 (counterexample): in the reachable query state `qRefetchSuccess`
(a background refetch of a successful query with a non-empty item list,
produced e.g. by the refresh icon), the dashboard renders the loading
indicator and the item table at the same time, so it does not render
exactly one of the four states. -/
theorem c1_counterexample :
    reactQueryInv qRefetchSuccess = true ∧
    inClaimedStatus qRefetchSuccess = true ∧
    dashboardBody qRefetchSuccess = [WState.loader, WState.table] ∧
    (dashboardBody qRefetchSuccess).length ≠ 1 := by
  refine ⟨rfl, rfl, rfl, ?_⟩
  decide

/-- C1 (amended): for every query state in one of the four claimed
statuses and satisfying the query-library invariants, the dashboard
renders exactly one of the four states, except when a background
refetch of an already-successful query is in flight
(`isSuccess ∧ isFetching`): then exactly two are rendered (the loading
indicator alongside the success content). -/
theorem c1_amended_exclusive_except_refetch (q : QueryState)
    (hinv : reactQueryInv q = true) (hstat : inClaimedStatus q = true) :
    (dashboardBody q).length =
      (if q.isSuccess && q.isFetching then 2 else 1) := by
  obtain ⟨l, f, e, s, d⟩ := q
  simp only [reactQueryInv, inClaimedStatus, dashboardBody] at *
  cases l <;> cases f <;> cases e <;> cases s <;> simp_all

/-- C1 witness: the amended statement instantiated at the concrete
refetch state. -/
theorem c1_amended_witness :
    reactQueryInv qRefetchSuccess = true ∧
    inClaimedStatus qRefetchSuccess = true ∧
    (dashboardBody qRefetchSuccess).length =
      (if qRefetchSuccess.isSuccess && qRefetchSuccess.isFetching then 2 else 1) :=
  ⟨rfl, rfl, c1_amended_exclusive_except_refetch qRefetchSuccess rfl rfl⟩

/-- C2: in every settled error state (no fetch in flight), the dashboard
renders exactly the static error alert and nothing else, and the query
options configure no automatic retry. -/
theorem c2_static_error_alert_no_retry (q : QueryState)
    (hinv : reactQueryInv q = true) (he : q.isError = true)
    (hf : q.isFetching = false) :
    dashboardBody q = [WState.errorAlert] ∧ itemQueryOptions.retry = none := by
  obtain ⟨l, f, e, s, d⟩ := q
  simp only [reactQueryInv, dashboardBody, itemQueryOptions] at *
  cases l <;> cases s <;> simp_all

/-- C2 witness: the error-state rendering instantiated at the concrete
settled error state `qError`. -/
theorem c2_witness :
    reactQueryInv qError = true ∧ qError.isError = true ∧
    qError.isFetching = false ∧
    (dashboardBody qError = [WState.errorAlert] ∧ itemQueryOptions.retry = none) :=
  ⟨rfl, rfl, rfl, c2_static_error_alert_no_retry qError rfl rfl rfl⟩

/-- C3: the `refresh` callback handed to the count-stock form performs
exactly one cache operation, invalidation under the key `['next-item']`,
which is the cache key of the item query, so completion of the bulk
action triggers a refetch of the item list. -/
theorem c3_refresh_invalidates_next_item (items : Option (List StockItem)) :
    (countStockForm items).refreshOps =
      [CacheOp.invalidateQueries itemQueryOptions.queryKey] ∧
    itemQueryOptions.queryKey = ["next-item"] :=
  ⟨rfl, rfl⟩

/-- C4: for every non-empty fetched items list, the body is the table
whose row list is exactly `items.map RenderStockItem`: one row per item,
in the order of the fetched list, with no sorting, filtering or
pagination. -/
theorem c4_rows_in_fetched_order (items : List StockItem) (h : items ≠ []) :
    (RenderStockItems (some items)).body =
      ItemsBody.table (items.map RenderStockItem) "Count Stock" ∧
    (items.map RenderStockItem).length = items.length := by
  constructor
  · simp [RenderStockItems, h]
  · simp

/-- C4 witness: the table rendering instantiated at the one-element
list `[i0]`. -/
theorem c4_witness :
    ([i0] ≠ ([] : List StockItem)) ∧
    ((RenderStockItems (some [i0])).body =
        ItemsBody.table ([i0].map RenderStockItem) "Count Stock" ∧
      ([i0].map RenderStockItem).length = [i0].length) :=
  ⟨by decide, c4_rows_in_fetched_order [i0] (by decide)⟩

/-- C5: the widget issues exactly one network request, an HTTP GET to
the fixed path `/plugin/rolling-stocktake/next/`, and the displayed item
list is taken from the `items` field of the JSON response body (with a
missing field defaulting to the empty list). -/
theorem c5_single_get_request (r : Response) :
    widgetRequests = [Request.mk Method.GET "/plugin/rolling-stocktake/next/"] ∧
    stockItems (some (queryFn r)) = (r.data.items).getD [] :=
  ⟨rfl, rfl⟩

/-- C6: whenever the fetched data yields an empty item list (the list is
empty or the response body lacks an `items` array), the success branch
renders the success-empty alert instead of the table. -/
theorem c6_empty_success_alert (d : Option RespData)
    (h : stockItems d = []) :
    (RenderStockItems (some (stockItems d))).body =
      ItemsBody.emptyAlert "All up to date!"
        "Nice work, you have counted enough items today." := by
  simp [RenderStockItems, h]

/-- C6 witness: the empty-alert rendering at a response body that lacks
an `items` array. -/
theorem c6_witness :
    stockItems (some (RespData.mk none)) = [] ∧
    (RenderStockItems (some (stockItems (some (RespData.mk none))))).body =
      ItemsBody.emptyAlert "All up to date!"
        "Nice work, you have counted enough items today." :=
  ⟨rfl, c6_empty_success_alert (some (RespData.mk none)) rfl⟩

/-- C7: the widget never writes to an item: the instance forwarded to
the host renderer is the item unchanged, and the bulk count form
receives the item list unchanged; and the cells the widget computes
itself (location, date, action) read only `pk`, `location_detail` and
`stocktake_date`, since two items agreeing on those three fields
produce identical cells. -/
theorem c7_read_only_three_fields (i j : StockItem)
    (hpk : i.pk = j.pk) (hloc : i.location_detail = j.location_detail)
    (hdate : i.stocktake_date = j.stocktake_date) :
    (RenderStockItem i).itemCell = Cell.itemInstance i ∧
    (RenderStockItem i).locationCell = (RenderStockItem j).locationCell ∧
    (RenderStockItem i).dateCell = (RenderStockItem j).dateCell ∧
    (RenderStockItem i).actionCell = (RenderStockItem j).actionCell ∧
    (countStockForm (some [i])).items = [i] := by
  refine ⟨rfl, ?_, ?_, ?_, rfl⟩ <;>
    simp [RenderStockItem, navigateToItem, hpk, hloc, hdate]

/-- C7 witness: the read-only property instantiated at the concrete
item `i0` against itself. -/
theorem c7_witness :
    i0.pk = i0.pk ∧
    ((RenderStockItem i0).itemCell = Cell.itemInstance i0 ∧
      (RenderStockItem i0).locationCell = (RenderStockItem i0).locationCell ∧
      (RenderStockItem i0).dateCell = (RenderStockItem i0).dateCell ∧
      (RenderStockItem i0).actionCell = (RenderStockItem i0).actionCell ∧
      (countStockForm (some [i0])).items = [i0]) :=
  ⟨rfl, c7_read_only_three_fields i0 i0 rfl rfl rfl⟩

/-- C8: for every item whose `pk` is absent or falsy, the click handler
of the row's view action is a no-op: it produces no navigation effect. -/
theorem c8_no_nav_on_falsy_pk (i : StockItem)
    (h : truthyNum i.pk = false) :
    navigateToItem i = none ∧
    (RenderStockItem i).actionCell = Cell.viewAction "View Item" none := by
  constructor
  · simp [navigateToItem, h]
  · simp [RenderStockItem, navigateToItem, h]

/-- C8 witness: the no-op navigation at the concrete item `iNoPk`, whose
`pk` is absent. -/
theorem c8_witness :
    truthyNum iNoPk.pk = false ∧
    (navigateToItem iNoPk = none ∧
      (RenderStockItem iNoPk).actionCell = Cell.viewAction "View Item" none) :=
  ⟨rfl, c8_no_nav_on_falsy_pk iNoPk rfl⟩

/-- C9: row rendering is total over missing optional fields: an absent
`location_detail` renders the placeholder text `No location` instead of
the host location renderer, and an absent `stocktake_date` renders the
placeholder text `Never`. -/
theorem c9_placeholders_for_missing_fields (i : StockItem) :
    (i.location_detail = none →
      (RenderStockItem i).locationCell = Cell.text "No location") ∧
    (i.stocktake_date = none →
      (RenderStockItem i).dateCell = Cell.redText "Never") := by
  constructor
  · intro h
    simp [RenderStockItem, h]
  · intro h
    simp [RenderStockItem, truthyStr, h]

/-- C9 witness: both placeholders at the concrete item `iNoPk`, whose
optional fields are absent. -/
theorem c9_witness :
    (RenderStockItem iNoPk).locationCell = Cell.text "No location" ∧
    (RenderStockItem iNoPk).dateCell = Cell.redText "Never" :=
  ⟨(c9_placeholders_for_missing_fields iNoPk).1 rfl,
   (c9_placeholders_for_missing_fields iNoPk).2 rfl⟩

/-- C10: for every fetched items list, the count-stock form factory is
called with exactly the full fetched list as its `items` argument, and
the call is made even when the list is empty, although the body then
shows the empty alert. -/
theorem c10_form_factory_full_list (items : List StockItem) :
    (RenderStockItems (some items)).formCall.items = items ∧
    (RenderStockItems (some items)).formCall = countStockForm (some items) ∧
    (RenderStockItems (some [])).formCall.items = ([] : List StockItem) ∧
    (RenderStockItems (some [])).body =
      ItemsBody.emptyAlert "All up to date!"
        "Nice work, you have counted enough items today." :=
  ⟨rfl, rfl, rfl, rfl⟩
